import Mathlib

/-!
Shallow embedding of the `sns-post-generater` worker core:
the `PostDraft` aggregate (src/worker/domain/postDraft.ts), the
`CreateDraftUseCase` (src/worker/usecases/createDraftUseCase.ts), the
`DraftGenerationWorkflow` (src/worker/workflows/draftGenerationWorkflow.ts),
the `QueueImageScheduler` (infrastructure) and the `SimpleContentGenerator`
(infrastructure).

Conventions of the embedding:
* JavaScript strings are Lean `String`; `String.prototype.trim` is modelled
  by `jsTrim` (strip leading and trailing whitespace), JS `toLowerCase` by
  `jsToLower`, and `replaceAll` of the whitespace regex by dropping all
  whitespace characters.
* `undefined`/optional fields are `Option`; the JS falsiness test on a
  string (`if (s)`, `filter(Boolean)`, `||`) is the test `s = ""` on a
  present string.
* Fallible async calls return `Except String`; the injected ports
  (ContentGenerator, DraftRepository, ImageScheduler, IdProvider, Clock)
  are fields of an `Env` record, and each orchestration step is recorded
  in an explicit trace of `PortEvent`s so that call-order claims are
  statable.
* The clock is represented by the ISO string it would produce
  (`clock.now().toISOString()`), the id provider by the string it returns.
-/

deriving instance DecidableEq for Except

/-- Model of JavaScript `String.prototype.trim`: remove leading and trailing
whitespace characters. -/
def jsTrim (s : String) : String :=
  ((s.data.dropWhile Char.isWhitespace).reverse.dropWhile Char.isWhitespace).reverse.asString

/-- Model of JavaScript `String.prototype.toLowerCase` (character-wise). -/
def jsToLower (s : String) : String :=
  (s.data.map Char.toLower).asString

/-- Model of `s.replaceAll(/\s+/g, "")`: delete every whitespace character. -/
def stripWhitespace (s : String) : String :=
  (s.data.filter (fun c => !c.isWhitespace)).asString

/-- `ContentGenerationInput` from draftGenerationWorkflow.ts: the input the
workflow hands to the ContentGenerator port. -/
structure ContentGenerationInput where
  theme : String
  brandVoice : String
  product : Option String
  targetPersona : Option String
deriving DecidableEq

/-- `GeneratedContent` from draftGenerationWorkflow.ts: what the
ContentGenerator port returns. -/
structure GeneratedContent where
  caption : String
  hashtags : List String
  altText : String
deriving DecidableEq

/-- `CreateDraftInput` from postDraft.ts: raw input to the entity factory.
The use-case layer re-declares `caption`/`hashtags`/`altText` as required;
structurally it passes a value of this shape through to `PostDraft.create`,
so the embedding uses the domain type (the superset) throughout. -/
structure CreateDraftInput where
  theme : String
  brandVoice : String
  product : Option String
  imagePrompt : Option String
  targetPersona : Option String
  caption : Option String
  hashtags : Option (List String)
  altText : Option String
deriving DecidableEq

/-- `DraftProps` from postDraft.ts: the aggregate's internal state. `status`
is the literal type `"draft"` in the source; it is kept as a `String` field
that the factory always sets to `"draft"`. -/
structure DraftProps where
  id : Option String
  theme : String
  brandVoice : String
  product : Option String
  imagePrompt : Option String
  targetPersona : Option String
  caption : Option String
  hashtags : Option (List String)
  altText : Option String
  status : String
  createdAt : String
deriving DecidableEq

/-- The `PostDraft` class: a private-constructor wrapper around its props. -/
structure PostDraft where
  props : DraftProps
deriving DecidableEq

/-- `input.hashtags?.map((tag) => tag.trim()).filter(Boolean)`: trim each
tag and drop the ones that became empty (the only falsy string is `""`). -/
def normalizeHashtags (tags : List String) : List String :=
  (tags.map jsTrim).filter (fun t => t != "")

/-- `hashtags && hashtags.length > 25`: the over-limit test guarding the
hashtag validation error in `PostDraft.create`. -/
def hashtagsOverLimit : Option (List String) → Bool
  | some hs => hs.length > 25
  | none => false

/-- `PostDraft.create(input, clock)` from postDraft.ts.  `nowIso` stands for
`clock.now().toISOString()`.  Trims `theme`/`brandVoice` and rejects them
when empty; normalizes the hashtags and rejects more than 25; trims the
optional fields (defaulting `product`/`imagePrompt`/`targetPersona` to
`""`); leaves `id` unassigned and fixes `status := "draft"`. -/
def PostDraft.create (input : CreateDraftInput) (nowIso : String) :
    Except String PostDraft :=
  let trimmedTheme := jsTrim input.theme
  let trimmedVoice := jsTrim input.brandVoice
  if trimmedTheme = "" then
    Except.error "theme must be a non-empty string"
  else if trimmedVoice = "" then
    Except.error "brandVoice must be a non-empty string"
  else
    let hashtags := input.hashtags.map normalizeHashtags
    if hashtagsOverLimit hashtags then
      Except.error "hashtags must be 25 items or fewer"
    else
      Except.ok ⟨{
        id := none
        theme := trimmedTheme
        brandVoice := trimmedVoice
        product := some ((input.product.map jsTrim).getD "")
        imagePrompt := some ((input.imagePrompt.map jsTrim).getD "")
        targetPersona := some ((input.targetPersona.map jsTrim).getD "")
        caption := input.caption.map jsTrim
        hashtags := hashtags
        altText := input.altText.map jsTrim
        status := "draft"
        createdAt := nowIso }⟩

/-- `assignId(id)` from postDraft.ts: `new PostDraft({ ...this.props, id })`. -/
def PostDraft.assignId (d : PostDraft) (id : String) : PostDraft :=
  ⟨{ d.props with id := some id }⟩

/-- `toJSON()` from postDraft.ts: `{ ...this.props }`, the total projection
of the props record. -/
def PostDraft.toJSON (d : PostDraft) : DraftProps :=
  d.props

/-- The props record a successful `PostDraft.create input nowIso` produces
(used to state shape lemmas; `PostDraft.create` itself is the embedding of
the factory). -/
def createdProps (input : CreateDraftInput) (nowIso : String) : DraftProps :=
  { id := none
    theme := jsTrim input.theme
    brandVoice := jsTrim input.brandVoice
    product := some ((input.product.map jsTrim).getD "")
    imagePrompt := some ((input.imagePrompt.map jsTrim).getD "")
    targetPersona := some ((input.targetPersona.map jsTrim).getD "")
    caption := input.caption.map jsTrim
    hashtags := input.hashtags.map normalizeHashtags
    altText := input.altText.map jsTrim
    status := "draft"
    createdAt := nowIso }

/-- `DraftSummary` from shared/contracts/draft: the use case's response
projection. -/
structure DraftSummary where
  id : String
  status : String
  caption : String
  hashtags : List String
  altText : String
  createdAt : String
deriving DecidableEq

/-- One observable call to an injected port, recorded in program order.
`generateCall` is a ContentGenerator.generate call, `saveCall` a
DraftRepository.save call, `scheduleCall` an ImageScheduler.schedule call. -/
inductive PortEvent where
  | generateCall (input : ContentGenerationInput)
  | saveCall (draft : PostDraft)
  | scheduleCall (draftId : String) (prompt : String)
deriving DecidableEq

/-- The injected collaborators of one request: the ContentGenerator and
ImageScheduler ports (fallible), the DraftRepository port (fallible), the
IdProvider's next id and the Clock's ISO timestamp. -/
structure Env where
  generate : ContentGenerationInput → Except String GeneratedContent
  save : PostDraft → Except String Unit
  schedule : String → String → Except String String
  nextId : String
  nowIso : String

/-- `CreateDraftUseCase.execute(input)` from createDraftUseCase.ts, with the
trace of repository calls it makes.  It builds the entity (propagating the
validation error with an empty trace), assigns the IdProvider's id, saves,
and projects `toJSON()` into a `DraftSummary`, defaulting absent
`caption`/`hashtags`/`altText` to empty values (`json.id!` is modelled by
`Option.getD ""`; the id is provably present). -/
def CreateDraftUseCase.execute (env : Env) (input : CreateDraftInput) :
    Except String DraftSummary × List PortEvent :=
  match PostDraft.create input env.nowIso with
  | Except.error e => (Except.error e, [])
  | Except.ok created =>
    let draft := created.assignId env.nextId
    match env.save draft with
    | Except.error e => (Except.error e, [PortEvent.saveCall draft])
    | Except.ok _ =>
      let json := draft.toJSON
      (Except.ok {
        id := json.id.getD ""
        status := json.status
        caption := json.caption.getD ""
        hashtags := json.hashtags.getD []
        altText := json.altText.getD ""
        createdAt := json.createdAt }, [PortEvent.saveCall draft])

/-- `DraftGenerationInput` (alias of `DraftGenerationRequest`): the
workflow's request shape. -/
structure DraftGenerationInput where
  theme : String
  brandVoice : String
  product : Option String
  imagePrompt : Option String
  targetPersona : Option String
deriving DecidableEq

/-- The `ContentGenerationInput` the workflow passes to the generator
(step 1 of `run`). -/
def genInputOf (input : DraftGenerationInput) : ContentGenerationInput :=
  { theme := input.theme
    brandVoice := input.brandVoice
    product := input.product
    targetPersona := input.targetPersona }

/-- The `CreateDraftInput` the workflow builds by merging the request with
the generated content (step 2 of `run`). -/
def draftInputOf (input : DraftGenerationInput) (generated : GeneratedContent) :
    CreateDraftInput :=
  { theme := input.theme
    brandVoice := input.brandVoice
    product := input.product
    imagePrompt := input.imagePrompt
    targetPersona := input.targetPersona
    caption := some generated.caption
    hashtags := some generated.hashtags
    altText := some generated.altText }

/-- `input.imagePrompt?.trim() || input.theme`: the image-prompt fallback of
step 4 of `run`.  Note the fallback is the raw, untrimmed `input.theme`. -/
def fallbackPrompt (imagePrompt : Option String) (theme : String) : String :=
  match imagePrompt.map jsTrim with
  | some t => if t = "" then theme else t
  | none => theme

/-- `DraftGenerationWorkflow.run(input)` from draftGenerationWorkflow.ts,
with the trace of port calls it makes: generate, then the use case
(entity creation and save), then schedule; each step awaited, every failure
propagated unchanged. -/
def DraftGenerationWorkflow.run (env : Env) (input : DraftGenerationInput) :
    Except String DraftSummary × List PortEvent :=
  let genInput := genInputOf input
  match env.generate genInput with
  | Except.error e => (Except.error e, [PortEvent.generateCall genInput])
  | Except.ok generated =>
    let result := CreateDraftUseCase.execute env (draftInputOf input generated)
    match result.1 with
    | Except.error e => (Except.error e, PortEvent.generateCall genInput :: result.2)
    | Except.ok draft =>
      let prompt := fallbackPrompt input.imagePrompt input.theme
      let events := PortEvent.generateCall genInput ::
        (result.2 ++ [PortEvent.scheduleCall draft.id prompt])
      match env.schedule draft.id prompt with
      | Except.error e => (Except.error e, events)
      | Except.ok _ => (Except.ok draft, events)

/-- A Cloudflare queue message `{ type: "generate_image", draftId, prompt }`. -/
structure QueueMessage where
  type : String
  draftId : String
  prompt : String
deriving DecidableEq

/-- `QueueImageScheduler.schedule(input)` from the infrastructure layer.
The optional queue binding is the list of messages already delivered;
`queue.send` appends.  The job id `draftId-image` is returned whether or
not a queue is configured, and the method body has no failure path of its
own, so the embedding is a total function. -/
def QueueImageScheduler.schedule (queue : Option (List QueueMessage))
    (draftId : String) (prompt : String) :
    String × Option (List QueueMessage) :=
  match queue with
  | some delivered =>
    (draftId ++ "-image",
      some (delivered ++ [{ type := "generate_image", draftId := draftId, prompt := prompt }]))
  | none => (draftId ++ "-image", none)

/-- `SimpleContentGenerator.buildCaption`: template caption from theme,
product, brand voice and persona (the `.trim()` at the end included). -/
def buildCaption (input : ContentGenerationInput) : String :=
  let persona := match input.targetPersona with
    | some tp => if tp = "" then "" else "#" ++ tp
    | none => ""
  let product := match input.product with
    | some p => if p = "" then "" else " " ++ p
    | none => ""
  jsTrim (input.theme ++ product ++ "を" ++ input.brandVoice ++ "トーンで紹介。" ++ persona)

/-- Insertion into a JS `Set` viewed as its insertion-ordered element list:
adds the tag at the end unless already present. -/
def addTag (tags : List String) (tag : String) : List String :=
  if tag ∈ tags then tags else tags ++ [tag]

/-- `SimpleContentGenerator.buildHashtags`: normalized theme tag, then the
normalized product tag when `input.product` is truthy, then `"instagram"`,
deduplicated in insertion order (JS `Set` iteration order). -/
def buildHashtags (input : ContentGenerationInput) : List String :=
  let t1 := addTag [] (jsToLower (stripWhitespace input.theme))
  let t2 := match input.product with
    | some p => if p = "" then t1 else addTag t1 (jsToLower (stripWhitespace p))
    | none => t1
  addTag t2 "instagram"

/-- `SimpleContentGenerator.buildAltText`. -/
def buildAltText (input : ContentGenerationInput) : String :=
  input.theme ++ "を表現する画像"

/-- `SimpleContentGenerator.generate(input)`: a pure, rule-based generator. -/
def SimpleContentGenerator.generate (input : ContentGenerationInput) :
    GeneratedContent :=
  { caption := buildCaption input
    hashtags := buildHashtags input
    altText := buildAltText input }

/-- The orchestration phase a port event belongs to: generation, then
persistence, then scheduling. -/
def PortEvent.phase : PortEvent → Nat
  | PortEvent.generateCall _ => 0
  | PortEvent.saveCall _ => 1
  | PortEvent.scheduleCall _ _ => 2

/-- A trace is step-ordered when every earlier event belongs to a strictly
earlier orchestration phase (generate before save before schedule, and at
most one event per phase). -/
def orderedEvents (events : List PortEvent) : Prop :=
  events.Pairwise (fun a b => a.phase < b.phase)

/-- Recognizer for DraftRepository.save calls in a trace. -/
def isSaveCall : PortEvent → Bool
  | PortEvent.saveCall _ => true
  | _ => false

/-- Recognizer for ImageScheduler.schedule calls in a trace. -/
def isScheduleCall : PortEvent → Bool
  | PortEvent.scheduleCall _ _ => true
  | _ => false

/-- The prompts handed to ImageScheduler.schedule, in trace order. -/
def schedulePromptsOf (events : List PortEvent) : List String :=
  events.filterMap (fun ev =>
    match ev with
    | PortEvent.scheduleCall _ p => some p
    | _ => none)

/-- A fully healthy environment used by concrete witnesses: every port
succeeds, the id provider returns `draft-123`, the clock a fixed instant. -/
def envOk : Env :=
  { generate := fun _ =>
      Except.ok { caption := "C", hashtags := ["a", "b"], altText := "Alt" }
    save := fun _ => Except.ok ()
    schedule := fun draftId _ => Except.ok (draftId ++ "-image")
    nextId := "draft-123"
    nowIso := "2025-01-01T00:00:00.000Z" }

/-- Scenario A input from the spec (§8). -/
def inputA : DraftGenerationInput :=
  { theme := "new sneaker"
    brandVoice := "friendly"
    product := some "AirFlex"
    imagePrompt := some "young person walking"
    targetPersona := some "active 20s" }

/-- The `CreateDraftInput` the workflow derives from Scenario A under
`envOk`'s generator. -/
def draftInputA : CreateDraftInput :=
  draftInputOf inputA { caption := "C", hashtags := ["a", "b"], altText := "Alt" }

/-- The entity `PostDraft.create draftInputA envOk.nowIso` produces. -/
def draftA : PostDraft :=
  ⟨{ id := none
     theme := "new sneaker"
     brandVoice := "friendly"
     product := some "AirFlex"
     imagePrompt := some "young person walking"
     targetPersona := some "active 20s"
     caption := some "C"
     hashtags := some ["a", "b"]
     altText := some "Alt"
     status := "draft"
     createdAt := "2025-01-01T00:00:00.000Z" }⟩

/-- `envOk` with a failing ContentGenerator port. -/
def envGenFail : Env :=
  { envOk with generate := fun _ => Except.error "generation failed" }

/-- `envOk` with a failing DraftRepository port. -/
def envSaveFail : Env :=
  { envOk with save := fun _ => Except.error "kv unavailable" }

/-- `envOk` with a failing ImageScheduler port. -/
def envSchedFail : Env :=
  { envOk with schedule := fun _ _ => Except.error "queue send failed" }

/-- A request whose `theme` carries surrounding whitespace and whose
`imagePrompt` is absent: the prompt-fallback counterexample input. -/
def inputUntrimmed : DraftGenerationInput :=
  { theme := " spring sneaker "
    brandVoice := "kind"
    product := none
    imagePrompt := none
    targetPersona := none }

/-- A well-formed standalone `CreateDraftInput` for use-case witnesses. -/
def baseInput : CreateDraftInput :=
  { theme := "new sneaker"
    brandVoice := "friendly"
    product := none
    imagePrompt := none
    targetPersona := none
    caption := none
    hashtags := none
    altText := none }

example :
    PostDraft.create
      { theme := "  new sneaker ", brandVoice := "friendly",
        product := some " AirFlex ", imagePrompt := none,
        targetPersona := none, caption := some "C",
        hashtags := some ["a", " ", "b "], altText := some "Alt" }
      "2025-01-01T00:00:00.000Z" =
    Except.ok ⟨{
      id := none
      theme := "new sneaker"
      brandVoice := "friendly"
      product := some "AirFlex"
      imagePrompt := some ""
      targetPersona := some ""
      caption := some "C"
      hashtags := some ["a", "b"]
      altText := some "Alt"
      status := "draft"
      createdAt := "2025-01-01T00:00:00.000Z" }⟩ := by decide

example :
    PostDraft.create
      { theme := "   ", brandVoice := "kind", product := none,
        imagePrompt := none, targetPersona := none, caption := none,
        hashtags := none, altText := none } "t" =
    Except.error "theme must be a non-empty string" := by decide

example :
    buildHashtags
      { theme := "Spring Shoes", brandVoice := "kind",
        product := some "Air Flex", targetPersona := none } =
    ["springshoes", "airflex", "instagram"] := by decide

example :
    buildHashtags
      { theme := "Instagram", brandVoice := "kind",
        product := none, targetPersona := none } =
    ["instagram"] := by decide

example :
    (DraftGenerationWorkflow.run envOk inputA).1 =
    Except.ok {
      id := "draft-123"
      status := "draft"
      caption := "C"
      hashtags := ["a", "b"]
      altText := "Alt"
      createdAt := "2025-01-01T00:00:00.000Z" } := by decide

example :
    (DraftGenerationWorkflow.run envOk inputA).2 =
    [PortEvent.generateCall (genInputOf inputA),
     PortEvent.saveCall (draftA.assignId "draft-123"),
     PortEvent.scheduleCall "draft-123" "young person walking"] := by decide

/-- Shape of a successful creation: the factory fully determines the entity
from the input and the clock value. -/
theorem create_ok_shape (input : CreateDraftInput) (nowIso : String)
    (d : PostDraft) (h : PostDraft.create input nowIso = Except.ok d) :
    d = ⟨createdProps input nowIso⟩ := by
  simp only [PostDraft.create] at h
  split_ifs at h
  cases h
  rfl

/-- A blank (after trimming) theme or brand voice makes creation fail. -/
theorem create_blank_fails (input : CreateDraftInput) (nowIso : String)
    (h : jsTrim input.theme = "" ∨ jsTrim input.brandVoice = "") :
    ∃ e, PostDraft.create input nowIso = Except.error e := by
  by_cases h1 : jsTrim input.theme = ""
  · exact ⟨"theme must be a non-empty string", by simp [PostDraft.create, h1]⟩
  · have h2 : jsTrim input.brandVoice = "" := by tauto
    exact ⟨"brandVoice must be a non-empty string",
      by simp [PostDraft.create, h1, h2]⟩

/-- When theme and voice are non-blank and the normalized hashtags are within
the limit, creation succeeds with the canonical record. -/
theorem create_ok_of_valid (input : CreateDraftInput) (nowIso : String)
    (h1 : jsTrim input.theme ≠ "") (h2 : jsTrim input.brandVoice ≠ "")
    (h3 : hashtagsOverLimit (input.hashtags.map normalizeHashtags) = false) :
    PostDraft.create input nowIso = Except.ok ⟨createdProps input nowIso⟩ := by
  simp only [PostDraft.create]
  rw [if_neg h1, if_neg h2, if_neg (by simp [h3])]
  rfl

/-- Exhaustive behavior of `CreateDraftUseCase.execute`: validation failure
with an empty trace, save failure after exactly one save call, or success
after exactly one save call on the id-assigned entity. -/
theorem execute_cases (env : Env) (input : CreateDraftInput) :
    (∃ e, PostDraft.create input env.nowIso = Except.error e ∧
       CreateDraftUseCase.execute env input = (Except.error e, [])) ∨
    (∃ d e, PostDraft.create input env.nowIso = Except.ok d ∧
       env.save (d.assignId env.nextId) = Except.error e ∧
       CreateDraftUseCase.execute env input =
         (Except.error e, [PortEvent.saveCall (d.assignId env.nextId)])) ∨
    (∃ d, PostDraft.create input env.nowIso = Except.ok d ∧
       env.save (d.assignId env.nextId) = Except.ok () ∧
       CreateDraftUseCase.execute env input =
         (Except.ok {
            id := ((d.assignId env.nextId).toJSON).id.getD ""
            status := ((d.assignId env.nextId).toJSON).status
            caption := ((d.assignId env.nextId).toJSON).caption.getD ""
            hashtags := ((d.assignId env.nextId).toJSON).hashtags.getD []
            altText := ((d.assignId env.nextId).toJSON).altText.getD ""
            createdAt := ((d.assignId env.nextId).toJSON).createdAt },
          [PortEvent.saveCall (d.assignId env.nextId)])) := by
  unfold CreateDraftUseCase.execute
  rcases hc : PostDraft.create input env.nowIso with e | c
  · exact Or.inl ⟨e, rfl, rfl⟩
  · rcases hs : env.save (c.assignId env.nextId) with e | u
    · exact Or.inr (Or.inl ⟨c, e, rfl, hs, by simp [hs]⟩)
    · cases u
      exact Or.inr (Or.inr ⟨c, rfl, hs, by simp [hs]⟩)

/-- Exhaustive behavior of `DraftGenerationWorkflow.run`: generation failure;
use-case failure after generation; scheduling failure after persistence; or
full success.  In every case the trace opens with the generate call, and the
schedule call (when reached) closes it. -/
theorem run_cases (env : Env) (input : DraftGenerationInput) :
    (∃ e, env.generate (genInputOf input) = Except.error e ∧
       DraftGenerationWorkflow.run env input =
         (Except.error e, [PortEvent.generateCall (genInputOf input)])) ∨
    (∃ g e, env.generate (genInputOf input) = Except.ok g ∧
       (CreateDraftUseCase.execute env (draftInputOf input g)).1 = Except.error e ∧
       DraftGenerationWorkflow.run env input =
         (Except.error e,
          PortEvent.generateCall (genInputOf input) ::
            (CreateDraftUseCase.execute env (draftInputOf input g)).2)) ∨
    (∃ g s e, env.generate (genInputOf input) = Except.ok g ∧
       (CreateDraftUseCase.execute env (draftInputOf input g)).1 = Except.ok s ∧
       env.schedule s.id (fallbackPrompt input.imagePrompt input.theme) =
         Except.error e ∧
       DraftGenerationWorkflow.run env input =
         (Except.error e,
          PortEvent.generateCall (genInputOf input) ::
            ((CreateDraftUseCase.execute env (draftInputOf input g)).2 ++
              [PortEvent.scheduleCall s.id
                 (fallbackPrompt input.imagePrompt input.theme)]))) ∨
    (∃ g s j, env.generate (genInputOf input) = Except.ok g ∧
       (CreateDraftUseCase.execute env (draftInputOf input g)).1 = Except.ok s ∧
       env.schedule s.id (fallbackPrompt input.imagePrompt input.theme) =
         Except.ok j ∧
       DraftGenerationWorkflow.run env input =
         (Except.ok s,
          PortEvent.generateCall (genInputOf input) ::
            ((CreateDraftUseCase.execute env (draftInputOf input g)).2 ++
              [PortEvent.scheduleCall s.id
                 (fallbackPrompt input.imagePrompt input.theme)]))) := by
  simp only [DraftGenerationWorkflow.run]
  rcases hg : env.generate (genInputOf input) with e | g
  · exact Or.inl ⟨e, rfl, rfl⟩
  · rcases hx : (CreateDraftUseCase.execute env (draftInputOf input g)).1 with e | s
    · exact Or.inr (Or.inl ⟨g, e, rfl, hx, by simp [hx]⟩)
    · rcases hs : env.schedule s.id (fallbackPrompt input.imagePrompt input.theme)
        with e | j
      · exact Or.inr (Or.inr (Or.inl ⟨g, s, e, rfl, hx, hs, by simp [hx, hs]⟩))
      · exact Or.inr (Or.inr (Or.inr ⟨g, s, j, rfl, hx, hs, by simp [hx, hs]⟩))

/-- C4: for every input whose theme or brandVoice is empty after trimming,
`PostDraft.create` fails with a validation error; for every input it
accepts, the created draft's theme and brandVoice equal the trimmed input
values. -/
theorem create_theme_brandVoice_validation (input : CreateDraftInput)
    (nowIso : String) :
    ((jsTrim input.theme = "" ∨ jsTrim input.brandVoice = "") →
      ∃ e, PostDraft.create input nowIso = Except.error e) ∧
    (∀ d, PostDraft.create input nowIso = Except.ok d →
      d.props.theme = jsTrim input.theme ∧
      d.props.brandVoice = jsTrim input.brandVoice) := by
  constructor
  · exact create_blank_fails input nowIso
  · intro d hd
    rw [create_ok_shape input nowIso d hd]
    exact ⟨rfl, rfl⟩

/-- C4 witness: a blank theme is rejected; on the accepting input the stored
theme and brandVoice are the trimmed inputs. -/
theorem create_theme_brandVoice_validation_witness :
    (∃ e, PostDraft.create { baseInput with theme := "   " } "t" =
      Except.error e) ∧
    ((⟨createdProps baseInput "t"⟩ : PostDraft).props.theme =
        jsTrim baseInput.theme ∧
     (⟨createdProps baseInput "t"⟩ : PostDraft).props.brandVoice =
        jsTrim baseInput.brandVoice) :=
  ⟨(create_theme_brandVoice_validation { baseInput with theme := "   " } "t").1
      (Or.inl (by decide)),
   (create_theme_brandVoice_validation baseInput "t").2
      ⟨createdProps baseInput "t"⟩ (by decide)⟩

/-- C5: more than 25 non-empty hashtags after trimming make
`PostDraft.create` fail; 25 or fewer (with the other invariants satisfied)
succeed, and the created draft's hashtags are the trimmed non-empty tags in
input order (a sublist of the trimmed input list, every entry non-empty). -/
theorem create_hashtag_limit (input : CreateDraftInput) (nowIso : String) :
    (∀ hs, input.hashtags = some hs → 25 < (normalizeHashtags hs).length →
      ∃ e, PostDraft.create input nowIso = Except.error e) ∧
    (∀ hs, input.hashtags = some hs → (normalizeHashtags hs).length ≤ 25 →
      jsTrim input.theme ≠ "" → jsTrim input.brandVoice ≠ "" →
      ∃ d, PostDraft.create input nowIso = Except.ok d ∧
        d.props.hashtags = some (normalizeHashtags hs) ∧
        (normalizeHashtags hs).Sublist (hs.map jsTrim) ∧
        ∀ t ∈ normalizeHashtags hs, t ≠ "") := by
  constructor
  · intro hs hhs hlen
    by_cases h1 : jsTrim input.theme = ""
    · exact create_blank_fails input nowIso (Or.inl h1)
    · by_cases h2 : jsTrim input.brandVoice = ""
      · exact create_blank_fails input nowIso (Or.inr h2)
      · have h3 : hashtagsOverLimit (input.hashtags.map normalizeHashtags) = true := by
          simp only [hhs, Option.map_some, hashtagsOverLimit]
          simpa using hlen
        refine ⟨"hashtags must be 25 items or fewer", ?_⟩
        simp only [PostDraft.create]
        rw [if_neg h1, if_neg h2, if_pos h3]

  · intro hs hhs hlen h1 h2
    have h3 : hashtagsOverLimit (input.hashtags.map normalizeHashtags) = false := by
      simp only [hhs, Option.map_some, hashtagsOverLimit]
      simpa using hlen
    refine ⟨⟨createdProps input nowIso⟩,
      create_ok_of_valid input nowIso h1 h2 h3, ?_, ?_, ?_⟩
    · simp [createdProps, hhs]
    · simp [normalizeHashtags]
    · intro t ht
      simp only [normalizeHashtags, List.mem_filter, bne_iff_ne, ne_eq] at ht
      exact ht.2

/-- C5 witness: 26 non-empty tags are rejected; three tags (one blank, one
needing a trim) are accepted as the trimmed non-empty tags in order. -/
theorem create_hashtag_limit_witness :
    (∃ e, PostDraft.create
        { baseInput with hashtags := some (List.replicate 26 "a") } "t" =
      Except.error e) ∧
    (∃ d, PostDraft.create
        { baseInput with hashtags := some ["a", " ", "b "] } "t" =
          Except.ok d ∧
      d.props.hashtags = some (normalizeHashtags ["a", " ", "b "]) ∧
      (normalizeHashtags ["a", " ", "b "]).Sublist
        (["a", " ", "b "].map jsTrim) ∧
      ∀ t ∈ normalizeHashtags ["a", " ", "b "], t ≠ "") :=
  ⟨(create_hashtag_limit { baseInput with hashtags := some (List.replicate 26 "a") }
      "t").1 (List.replicate 26 "a") rfl (by decide),
   (create_hashtag_limit { baseInput with hashtags := some ["a", " ", "b "] }
      "t").2 ["a", " ", "b "] rfl (by decide) (by decide) (by decide)⟩

/-- C7: the queue-backed ImageScheduler never fails merely because no queue
is configured — its embedding is a total function over an optional queue
binding — and it returns the job identifier draftId-image whether or not a
backing queue is present. -/
theorem queueImageScheduler_always_returns_job_id
    (queue : Option (List QueueMessage)) (draftId prompt : String) :
    (QueueImageScheduler.schedule queue draftId prompt).1 =
      draftId ++ "-image" := by
  cases queue <;> rfl

/-- C8: `toJSON` is the total projection of the aggregate's props; applied
to a created draft it reproduces every field supplied at creation under the
factory's documented normalization (`createdProps`): no field is lost or
silently mutated. -/
theorem toJSON_roundtrips_creation (input : CreateDraftInput) (nowIso : String)
    (d : PostDraft) (h : PostDraft.create input nowIso = Except.ok d) :
    d.toJSON = d.props ∧ d.toJSON = createdProps input nowIso := by
  refine ⟨rfl, ?_⟩
  rw [create_ok_shape input nowIso d h]
  rfl

/-- C8 witness: the Scenario A creation input round-trips through the
factory and `toJSON`. -/
theorem toJSON_roundtrips_creation_witness :
    (⟨createdProps draftInputA "2025-01-01T00:00:00.000Z"⟩ : PostDraft).toJSON =
      (⟨createdProps draftInputA "2025-01-01T00:00:00.000Z"⟩ : PostDraft).props ∧
    (⟨createdProps draftInputA "2025-01-01T00:00:00.000Z"⟩ : PostDraft).toJSON =
      createdProps draftInputA "2025-01-01T00:00:00.000Z" :=
  toJSON_roundtrips_creation draftInputA "2025-01-01T00:00:00.000Z"
    ⟨createdProps draftInputA "2025-01-01T00:00:00.000Z"⟩ (by decide)

/-- C9: `assignId` returns a draft whose id is the given identifier and
whose other ten fields are unchanged.  The source builds a new object by
spreading the old props (`new PostDraft({ ...this.props, id })`) and the
embedding is purely functional, so the original value is never mutated. -/
theorem assignId_sets_id_and_preserves_all_other_fields
    (d : PostDraft) (id : String) :
    (d.assignId id).props.id = some id ∧
    (d.assignId id).props.theme = d.props.theme ∧
    (d.assignId id).props.brandVoice = d.props.brandVoice ∧
    (d.assignId id).props.product = d.props.product ∧
    (d.assignId id).props.imagePrompt = d.props.imagePrompt ∧
    (d.assignId id).props.targetPersona = d.props.targetPersona ∧
    (d.assignId id).props.caption = d.props.caption ∧
    (d.assignId id).props.hashtags = d.props.hashtags ∧
    (d.assignId id).props.altText = d.props.altText ∧
    (d.assignId id).props.status = d.props.status ∧
    (d.assignId id).props.createdAt = d.props.createdAt :=
  ⟨rfl, rfl, rfl, rfl, rfl, rfl, rfl, rfl, rfl, rfl, rfl⟩

/-- C6: `CreateDraftUseCase.execute` performs zero repository saves on a
validation failure (aborting with that error), exactly one save — of the
draft carrying the IdProvider's identifier — once creation succeeds, and
its returned summary carries the assigned id and defaults absent
caption/hashtags/altText to empty values. -/
theorem execute_save_discipline (env : Env) (input : CreateDraftInput) :
    (∀ e, PostDraft.create input env.nowIso = Except.error e →
      CreateDraftUseCase.execute env input = (Except.error e, [])) ∧
    (∀ d, PostDraft.create input env.nowIso = Except.ok d →
      (CreateDraftUseCase.execute env input).2 =
        [PortEvent.saveCall (d.assignId env.nextId)] ∧
      (d.assignId env.nextId).props.id = some env.nextId) ∧
    (∀ s, (CreateDraftUseCase.execute env input).1 = Except.ok s →
      ∃ d, PostDraft.create input env.nowIso = Except.ok d ∧
        s.id = env.nextId ∧
        s.caption = (d.assignId env.nextId).props.caption.getD "" ∧
        s.hashtags = (d.assignId env.nextId).props.hashtags.getD [] ∧
        s.altText = (d.assignId env.nextId).props.altText.getD "" ∧
        s.status = "draft" ∧
        s.createdAt = env.nowIso) := by
  refine ⟨?_, ?_, ?_⟩
  · intro e he
    rcases execute_cases env input with ⟨e', hc, hx⟩ | ⟨d, e', hc, hsv, hx⟩ |
      ⟨d, hc, hsv, hx⟩
    · rw [he] at hc
      cases hc
      exact hx
    · rw [he] at hc
      cases hc
    · rw [he] at hc
      cases hc
  · intro d hd
    refine ⟨?_, rfl⟩
    rcases execute_cases env input with ⟨e, hc, hx⟩ | ⟨d', e, hc, hsv, hx⟩ |
      ⟨d', hc, hsv, hx⟩
    · rw [hd] at hc
      cases hc
    · rw [hd] at hc
      cases hc
      rw [hx]
    · rw [hd] at hc
      cases hc
      rw [hx]
  · intro s hs
    rcases execute_cases env input with ⟨e, hc, hx⟩ | ⟨d, e, hc, hsv, hx⟩ |
      ⟨d, hc, hsv, hx⟩
    · rw [hx] at hs
      simp at hs
    · rw [hx] at hs
      simp at hs
    · obtain rfl : d = ⟨createdProps input env.nowIso⟩ :=
        create_ok_shape input env.nowIso d hc
      rw [hx] at hs
      simp only [Except.ok.injEq] at hs
      subst hs
      exact ⟨⟨createdProps input env.nowIso⟩, hc, rfl, rfl, rfl, rfl, rfl, rfl⟩

/-- C6 witness: a blank theme yields an error with zero saves; the accepting
input yields exactly one save of the id-bearing draft, and the summary of a
content-free input defaults caption/hashtags/altText to empty values. -/
theorem execute_save_discipline_witness :
    CreateDraftUseCase.execute envOk { baseInput with theme := "   " } =
      (Except.error "theme must be a non-empty string", []) ∧
    (CreateDraftUseCase.execute envOk baseInput).2 =
      [PortEvent.saveCall
        ((⟨createdProps baseInput "2025-01-01T00:00:00.000Z"⟩ : PostDraft).assignId
          "draft-123")] ∧
    (∃ d, PostDraft.create baseInput envOk.nowIso = Except.ok d ∧
      ({ id := "draft-123", status := "draft", caption := "", hashtags := [],
         altText := "", createdAt := "2025-01-01T00:00:00.000Z" } : DraftSummary).id =
        envOk.nextId ∧
      ({ id := "draft-123", status := "draft", caption := "", hashtags := [],
         altText := "", createdAt := "2025-01-01T00:00:00.000Z" } : DraftSummary).caption =
        (d.assignId envOk.nextId).props.caption.getD "" ∧
      ({ id := "draft-123", status := "draft", caption := "", hashtags := [],
         altText := "", createdAt := "2025-01-01T00:00:00.000Z" } : DraftSummary).hashtags =
        (d.assignId envOk.nextId).props.hashtags.getD [] ∧
      ({ id := "draft-123", status := "draft", caption := "", hashtags := [],
         altText := "", createdAt := "2025-01-01T00:00:00.000Z" } : DraftSummary).altText =
        (d.assignId envOk.nextId).props.altText.getD "" ∧
      ({ id := "draft-123", status := "draft", caption := "", hashtags := [],
         altText := "", createdAt := "2025-01-01T00:00:00.000Z" } : DraftSummary).status =
        "draft" ∧
      ({ id := "draft-123", status := "draft", caption := "", hashtags := [],
         altText := "", createdAt := "2025-01-01T00:00:00.000Z" } : DraftSummary).createdAt =
        envOk.nowIso) :=
  ⟨(execute_save_discipline envOk { baseInput with theme := "   " }).1
      "theme must be a non-empty string" (by decide),
   ((execute_save_discipline envOk baseInput).2.1
      ⟨createdProps baseInput "2025-01-01T00:00:00.000Z"⟩ (by decide)).1,
   (execute_save_discipline envOk baseInput).2.2
      { id := "draft-123", status := "draft", caption := "", hashtags := [],
        altText := "", createdAt := "2025-01-01T00:00:00.000Z" } (by decide)⟩

/-- C1: within one `run`, port calls are strictly phase-ordered — the
generate call precedes any save call, which precedes any schedule call; if
generation fails the trace is exactly the generate call (no draft creation:
no save, no schedule); and if the use-case step fails no schedule call
occurs. -/
theorem run_orders_generate_save_schedule (env : Env)
    (input : DraftGenerationInput) :
    orderedEvents (DraftGenerationWorkflow.run env input).2 ∧
    (∀ e, env.generate (genInputOf input) = Except.error e →
      (DraftGenerationWorkflow.run env input).2 =
        [PortEvent.generateCall (genInputOf input)]) ∧
    (∀ g e, env.generate (genInputOf input) = Except.ok g →
      (CreateDraftUseCase.execute env (draftInputOf input g)).1 =
        Except.error e →
      ∀ ev ∈ (DraftGenerationWorkflow.run env input).2,
        isScheduleCall ev = false) := by
  refine ⟨?_, ?_, ?_⟩
  · rcases run_cases env input with ⟨e, hg, hr⟩ | ⟨g, e, hg, hx, hr⟩ |
      ⟨g, s, e, hg, hx, hs, hr⟩ | ⟨g, s, j, hg, hx, hs, hr⟩
    · rw [hr]
      simp [orderedEvents]
    · rw [hr]
      rcases execute_cases env (draftInputOf input g) with ⟨e', hc, hx'⟩ |
        ⟨d, e', hc, hsv, hx'⟩ | ⟨d, hc, hsv, hx'⟩ <;>
        rw [hx'] <;> simp [orderedEvents, PortEvent.phase]
    · rw [hr]
      rcases execute_cases env (draftInputOf input g) with ⟨e', hc, hx'⟩ |
        ⟨d, e', hc, hsv, hx'⟩ | ⟨d, hc, hsv, hx'⟩
      · rw [hx'] at hx
        simp at hx
      · rw [hx'] at hx
        simp at hx
      · rw [hx']
        simp [orderedEvents, PortEvent.phase]
    · rw [hr]
      rcases execute_cases env (draftInputOf input g) with ⟨e', hc, hx'⟩ |
        ⟨d, e', hc, hsv, hx'⟩ | ⟨d, hc, hsv, hx'⟩
      · rw [hx'] at hx
        simp at hx
      · rw [hx'] at hx
        simp at hx
      · rw [hx']
        simp [orderedEvents, PortEvent.phase]
  · intro e he
    rcases run_cases env input with ⟨e', hg, hr⟩ | ⟨g, e', hg, hx, hr⟩ |
      ⟨g, s, e', hg, hx, hs, hr⟩ | ⟨g, s, j, hg, hx, hs, hr⟩
    · rw [hr]
    · rw [he] at hg
      cases hg
    · rw [he] at hg
      cases hg
    · rw [he] at hg
      cases hg
  · intro g e hg hx ev hev
    rcases run_cases env input with ⟨e', hg', hr⟩ | ⟨g', e', hg', hx', hr⟩ |
      ⟨g', s, e', hg', hx', hs, hr⟩ | ⟨g', s, j, hg', hx', hs, hr⟩
    · rw [hg] at hg'
      cases hg'
    · rw [hg] at hg'
      cases hg'
      rw [hr] at hev
      rcases execute_cases env (draftInputOf input g) with ⟨e'', hc, hx''⟩ |
        ⟨d, e'', hc, hsv, hx''⟩ | ⟨d, hc, hsv, hx''⟩
      · rw [hx''] at hev
        simp at hev
        subst hev
        rfl
      · rw [hx''] at hev
        simp at hev
        rcases hev with rfl | rfl <;> rfl
      · rw [hx''] at hx
        simp at hx
    · rw [hg] at hg'
      cases hg'
      rw [hx] at hx'
      cases hx'
    · rw [hg] at hg'
      cases hg'
      rw [hx] at hx'
      cases hx'

/-- C1 witness: the healthy run is phase-ordered; the failing generator
leaves only its own call in the trace; the failing repository prevents any
schedule call. -/
theorem run_orders_generate_save_schedule_witness :
    orderedEvents (DraftGenerationWorkflow.run envOk inputA).2 ∧
    (DraftGenerationWorkflow.run envGenFail inputA).2 =
      [PortEvent.generateCall (genInputOf inputA)] ∧
    (∀ ev ∈ (DraftGenerationWorkflow.run envSaveFail inputA).2,
      isScheduleCall ev = false) :=
  ⟨(run_orders_generate_save_schedule envOk inputA).1,
   (run_orders_generate_save_schedule envGenFail inputA).2.1
      "generation failed" rfl,
   (run_orders_generate_save_schedule envSaveFail inputA).2.2
      { caption := "C", hashtags := ["a", "b"], altText := "Alt" }
      "kv unavailable" rfl (by decide)⟩

/-- C3: if the ImageScheduler.schedule call fails during a run, the run as a
whole fails with that very error (uncaught, propagated unchanged), even
though the draft had already been saved successfully before the scheduling
call. -/
theorem run_schedule_failure_aborts (env : Env) (input : DraftGenerationInput)
    (g : GeneratedContent) (s : DraftSummary) (e : String)
    (hg : env.generate (genInputOf input) = Except.ok g)
    (hx : (CreateDraftUseCase.execute env (draftInputOf input g)).1 =
      Except.ok s)
    (hs : env.schedule s.id (fallbackPrompt input.imagePrompt input.theme) =
      Except.error e) :
    (DraftGenerationWorkflow.run env input).1 = Except.error e ∧
    ∃ d, PortEvent.saveCall d ∈ (DraftGenerationWorkflow.run env input).2 ∧
      env.save d = Except.ok () := by
  rcases run_cases env input with ⟨e', hg', hr⟩ | ⟨g', e', hg', hx', hr⟩ |
    ⟨g', s', e', hg', hx', hs', hr⟩ | ⟨g', s', j, hg', hx', hs', hr⟩
  · rw [hg] at hg'
    cases hg'
  · rw [hg] at hg'
    cases hg'
    rw [hx] at hx'
    cases hx'
  · rw [hg] at hg'
    cases hg'
    rw [hx] at hx'
    cases hx'
    rw [hs] at hs'
    cases hs'
    rcases execute_cases env (draftInputOf input g) with ⟨e'', hc, hx''⟩ |
      ⟨d, e'', hc, hsv, hx''⟩ | ⟨d, hc, hsv, hx''⟩
    · rw [hx''] at hx
      simp at hx
    · rw [hx''] at hx
      simp at hx
    · refine ⟨?_, d.assignId env.nextId, ?_, hsv⟩
      · rw [hr]
      · rw [hr, hx'']
        simp
  · rw [hg] at hg'
    cases hg'
    rw [hx] at hx'
    cases hx'
    rw [hs] at hs'
    cases hs'

/-- C3 witness: under the failing scheduler the Scenario A run fails with
the scheduler's error even though the draft had been saved. -/
theorem run_schedule_failure_aborts_witness :
    (DraftGenerationWorkflow.run envSchedFail inputA).1 =
      Except.error "queue send failed" ∧
    ∃ d, PortEvent.saveCall d ∈ (DraftGenerationWorkflow.run envSchedFail inputA).2 ∧
      envSchedFail.save d = Except.ok () :=
  run_schedule_failure_aborts envSchedFail inputA
    { caption := "C", hashtags := ["a", "b"], altText := "Alt" }
    { id := "draft-123", status := "draft", caption := "C",
      hashtags := ["a", "b"], altText := "Alt",
      createdAt := "2025-01-01T00:00:00.000Z" }
    "queue send failed" rfl (by decide) rfl

/-- C2 counterexample: with `imagePrompt` absent and a theme carrying
surrounding whitespace, the prompt the workflow passes to the scheduler is
the raw theme, which differs from the trimmed theme the claim requires. -/
theorem run_prompt_fallback_counterexample :
    schedulePromptsOf (DraftGenerationWorkflow.run envOk inputUntrimmed).2 =
      [" spring sneaker "] ∧
    jsTrim inputUntrimmed.theme ≠ " spring sneaker " := by
  constructor
  · decide
  · decide

/-- C2 amended: the prompt the workflow passes to the scheduler is always
`fallbackPrompt`; when `imagePrompt` is absent or blank after trimming this
is the theme exactly as given in the request (untrimmed), and when the
trimmed `imagePrompt` is non-empty it is that trimmed `imagePrompt`. -/
theorem run_prompt_fallback_policy (env : Env) (input : DraftGenerationInput) :
    (∀ i p, PortEvent.scheduleCall i p ∈
        (DraftGenerationWorkflow.run env input).2 →
      p = fallbackPrompt input.imagePrompt input.theme) ∧
    ((input.imagePrompt = none ∨ input.imagePrompt.map jsTrim = some "") →
      fallbackPrompt input.imagePrompt input.theme = input.theme) ∧
    (∀ ip, input.imagePrompt = some ip → jsTrim ip ≠ "" →
      fallbackPrompt input.imagePrompt input.theme = jsTrim ip) := by
  refine ⟨?_, ?_, ?_⟩
  · intro i p hmem
    rcases run_cases env input with ⟨e, hg, hr⟩ | ⟨g, e, hg, hx, hr⟩ |
      ⟨g, s, e, hg, hx, hs, hr⟩ | ⟨g, s, j, hg, hx, hs, hr⟩
    · rw [hr] at hmem
      simp at hmem
    · rw [hr] at hmem
      rcases execute_cases env (draftInputOf input g) with ⟨e', hc, hx'⟩ |
        ⟨d, e', hc, hsv, hx'⟩ | ⟨d, hc, hsv, hx'⟩
      · rw [hx'] at hmem
        simp at hmem
      · rw [hx'] at hmem
        simp at hmem
      · rw [hx'] at hx
        simp at hx
    · rw [hr] at hmem
      rcases execute_cases env (draftInputOf input g) with ⟨e', hc, hx'⟩ |
        ⟨d, e', hc, hsv, hx'⟩ | ⟨d, hc, hsv, hx'⟩
      · rw [hx'] at hx
        simp at hx
      · rw [hx'] at hx
        simp at hx
      · rw [hx'] at hmem
        simp at hmem
        exact hmem.2
    · rw [hr] at hmem
      rcases execute_cases env (draftInputOf input g) with ⟨e', hc, hx'⟩ |
        ⟨d, e', hc, hsv, hx'⟩ | ⟨d, hc, hsv, hx'⟩
      · rw [hx'] at hx
        simp at hx
      · rw [hx'] at hx
        simp at hx
      · rw [hx'] at hmem
        simp at hmem
        exact hmem.2
  · intro h
    rcases h with h | h
    · rw [h]
      rfl
    · rcases hip : input.imagePrompt with _ | ip
      · rfl
      · rw [hip] at h
        have h2 : jsTrim ip = "" := by simpa using h
        simp [fallbackPrompt, hip, h2]
  · intro ip hip hne
    simp [fallbackPrompt, hip, hne]

/-- C2 amended witness: in the healthy Scenario A run the scheduled prompt
is the trimmed non-empty imagePrompt; with an absent imagePrompt the
fallback is the raw theme. -/
theorem run_prompt_fallback_policy_witness :
    "young person walking" =
      fallbackPrompt inputA.imagePrompt inputA.theme ∧
    fallbackPrompt inputUntrimmed.imagePrompt inputUntrimmed.theme =
      inputUntrimmed.theme ∧
    fallbackPrompt inputA.imagePrompt inputA.theme =
      jsTrim "young person walking" :=
  ⟨(run_prompt_fallback_policy envOk inputA).1 "draft-123"
      "young person walking" (by decide),
   (run_prompt_fallback_policy envOk inputUntrimmed).2.1 (Or.inl rfl),
   (run_prompt_fallback_policy envOk inputA).2.2 "young person walking" rfl
      (by decide)⟩

/-- Inserting into the insertion-ordered set keeps the list duplicate-free. -/
theorem addTag_nodup {l : List String} (h : l.Nodup) (t : String) :
    (addTag l t).Nodup := by
  unfold addTag
  split_ifs with ht
  · exact h
  · refine List.Nodup.append h (List.nodup_singleton t) ?_
    intro x hx hx'
    simp at hx'
    subst hx'
    exact ht hx

/-- Inserting into the insertion-ordered set grows it by at most one. -/
theorem addTag_length (l : List String) (t : String) :
    (addTag l t).length ≤ l.length + 1 := by
  unfold addTag
  split_ifs
  · omega
  · simp

/-- The inserted tag is a member afterwards. -/
theorem self_mem_addTag (l : List String) (t : String) : t ∈ addTag l t := by
  unfold addTag
  split_ifs with h
  · exact h
  · simp

/-- The generator's hashtag list is duplicate-free. -/
theorem buildHashtags_nodup (input : ContentGenerationInput) :
    (buildHashtags input).Nodup := by
  unfold buildHashtags
  apply addTag_nodup
  rcases hp : input.product with _ | p
  · exact addTag_nodup List.nodup_nil _
  · dsimp only
    split_ifs
    · exact addTag_nodup List.nodup_nil _
    · exact addTag_nodup (addTag_nodup List.nodup_nil _) _

/-- The generator's hashtag list has at most three entries. -/
theorem buildHashtags_length (input : ContentGenerationInput) :
    (buildHashtags input).length ≤ 3 := by
  simp only [buildHashtags]
  have h1 : (addTag [] (jsToLower (stripWhitespace input.theme))).length ≤ 1 :=
    addTag_length [] _
  rcases hp : input.product with _ | p
  · dsimp only
    have := addTag_length (addTag [] (jsToLower (stripWhitespace input.theme)))
      "instagram"
    omega
  · dsimp only
    split_ifs
    · have := addTag_length (addTag [] (jsToLower (stripWhitespace input.theme)))
        "instagram"
      omega
    · have h2 := addTag_length (addTag [] (jsToLower (stripWhitespace input.theme)))
        (jsToLower (stripWhitespace p))
      have h3 := addTag_length
        (addTag (addTag [] (jsToLower (stripWhitespace input.theme)))
          (jsToLower (stripWhitespace p))) "instagram"
      omega

/-- The platform tag "instagram" is always present. -/
theorem instagram_mem_buildHashtags (input : ContentGenerationInput) :
    "instagram" ∈ buildHashtags input := by
  unfold buildHashtags
  exact self_mem_addTag _ _

/-- C10: `SimpleContentGenerator.generate` is a pure function of its input
(two runs on equal input return equal output); its hashtag list is
duplicate-free, has at most 3 entries and always contains "instagram";
consequently content it generates can never trigger the 25-hashtag
validation failure of `PostDraft.create`. -/
theorem simpleContentGenerator_hashtags_within_limit
    (input : ContentGenerationInput) :
    SimpleContentGenerator.generate input = SimpleContentGenerator.generate input ∧
    (SimpleContentGenerator.generate input).hashtags.Nodup ∧
    (SimpleContentGenerator.generate input).hashtags.length ≤ 3 ∧
    "instagram" ∈ (SimpleContentGenerator.generate input).hashtags ∧
    (∀ (inp : CreateDraftInput) (nowIso : String),
      inp.hashtags = some (SimpleContentGenerator.generate input).hashtags →
      PostDraft.create inp nowIso ≠
        Except.error "hashtags must be 25 items or fewer") := by
  refine ⟨rfl, buildHashtags_nodup input, buildHashtags_length input,
    instagram_mem_buildHashtags input, ?_⟩
  intro inp nowIso hh hcontra
  have hlen : (normalizeHashtags (buildHashtags input)).length ≤ 3 := by
    have hfil : (normalizeHashtags (buildHashtags input)).length ≤
        ((buildHashtags input).map jsTrim).length :=
      List.length_filter_le _ _
    have hmap : ((buildHashtags input).map jsTrim).length =
        (buildHashtags input).length := List.length_map _ _
    have := buildHashtags_length input
    omega
  simp only [PostDraft.create] at hcontra
  split_ifs at hcontra with h1 h2 h3
  · exact absurd (Except.error.inj hcontra) (by decide)
  · exact absurd (Except.error.inj hcontra) (by decide)
  · rw [hh] at h3
    simp only [Option.map_some, hashtagsOverLimit] at h3
    have h4 : 25 < (normalizeHashtags (buildHashtags input)).length := by
      simpa [SimpleContentGenerator.generate] using h3
    omega

/-- C10 witness: the generator's output for the Scenario A brief is accepted
by the factory without tripping the hashtag limit. -/
theorem simpleContentGenerator_hashtags_within_limit_witness :
    (SimpleContentGenerator.generate (genInputOf inputA)).hashtags.Nodup ∧
    PostDraft.create
      { baseInput with hashtags := some (SimpleContentGenerator.generate (genInputOf inputA)).hashtags }
      "t" ≠ Except.error "hashtags must be 25 items or fewer" :=
  ⟨(simpleContentGenerator_hashtags_within_limit (genInputOf inputA)).2.1,
   (simpleContentGenerator_hashtags_within_limit (genInputOf inputA)).2.2.2.2
      { baseInput with hashtags := some (SimpleContentGenerator.generate (genInputOf inputA)).hashtags }
      "t" rfl⟩
